import Mathlib

/-!
Verification of the s4-clarity-lib element-mapping core and the `Artifact`
entity (`src/s4/clarity/artifact.py`) against its specification.

The embedding models XML documents as rooted labelled trees (`XmlNode`).
XML path expressions such as `"./control-type"` or `"location/value"` are
represented as lists of tag segments: `"./x"` becomes `["x"]` and `"."`
becomes `[]` (a leading `./` is relative-to-self and drops out).

The generic document core (`WrappedXml` / `ClarityElement` helpers such as
`get_node_text` and `set_subnode_text`), the field descriptors
(`attribute_property`, `subnode_link`, `subnode_element_list`) and the
`ElementFactory` live in `s4/clarity/_internal/`, which is not part of the
sources at hand; those pieces are modelled from the specification (sections
4.1, 4.2 and 4.4) and are marked `Modelled from the spec:` below.  The
`Artifact` methods themselves are translated directly from
`src/s4/clarity/artifact.py`.
-/

/-- An XML element: tag, attribute list, optional text content, children.
Mirrors the shape of an `xml.etree` element as used by the library. -/
structure XmlNode where
  tag : String
  attrs : List (String × String)
  text : Option String
  children : List XmlNode

/-- Attribute lookup, `node.get(key)` in ElementTree: first binding wins,
`none` when the attribute is absent. -/
def XmlNode.getAttr (n : XmlNode) (k : String) : Option String :=
  (n.attrs.find? (fun p => p.1 == k)).map (fun p => p.2)

/-- First child with the given tag, or `none`; the one-segment case of
ElementTree `find`. -/
def XmlNode.findChild (n : XmlNode) (t : String) : Option XmlNode :=
  n.children.find? (fun c => c.tag == t)

/-- Modelled from the spec: `find(path)` of the wrapped-document core
(section 4.1), a read-only traversal returning `none` when absent.  The
path is a list of tag segments. -/
def XmlNode.findPath : List String → XmlNode → Option XmlNode
  | [], n => some n
  | t :: rest, n => (n.findChild t).bind (fun c => XmlNode.findPath rest c)

/-- Helper for auto-vivifying writes: set the text of the first child with
the given tag, creating the child when no such child exists. -/
def setChildText (t v : String) : List XmlNode → List XmlNode
  | [] => [⟨t, [], some v, []⟩]
  | c :: cs =>
    if c.tag == t then { c with text := some v } :: cs
    else c :: setChildText t v cs

/-- Modelled from the spec: `set_text(path, value)` of the wrapped-document
core (section 4.1) — creates the subnode if missing and sets its text —
restricted to the single-segment paths the embedded code uses
(`'qc-flag'`). -/
def XmlNode.setSubnodeText (n : XmlNode) (t v : String) : XmlNode :=
  { n with children := setChildText t v n.children }

/-- Modelled from the spec: `get_text(path)` of the wrapped-document core
(section 4.1) — returns the text content of a subnode or `none` if absent
(also `none` for a present but empty subnode, as in ElementTree). -/
def XmlNode.getNodeText (n : XmlNode) (t : String) : Option String :=
  (n.findChild t).bind XmlNode.text

/-- Modelled from the spec: the subnode-element-list descriptor (section
4.2) — the freshly listed child elements with the given tag under the
container at `parentPath` (container `"."` is the empty path, meaning the
owning node itself); empty when the container is absent. -/
def XmlNode.subnodeElementList (n : XmlNode) (parentPath : List String) (childTag : String) :
    List XmlNode :=
  match XmlNode.findPath parentPath n with
  | some p => p.children.filter (fun c => c.tag == childTag)
  | none => []

/-- Modelled from the spec: a wrapped document — one parsed tree plus a
dirty flag (the source URI is irrelevant to the claims and omitted). -/
structure WrappedXml where
  root : XmlNode
  dirty : Bool

/-- Modelled from the spec: `BatchFlags` bit-flag constants of
`s4/clarity/_internal/factory.py` (a set of bit flags, section 4.4). -/
def BatchFlags.NONE : Nat := 0

/-- Modelled from the spec: the batch-create capability flag bit. -/
def BatchFlags.BATCH_CREATE : Nat := 1

/-- Modelled from the spec: the batch-get capability flag bit. -/
def BatchFlags.BATCH_GET : Nat := 2

/-- Modelled from the spec: the batch-update capability flag bit. -/
def BatchFlags.BATCH_UPDATE : Nat := 4

/-- Modelled from the spec: the ad-hoc query capability flag bit. -/
def BatchFlags.QUERY : Nat := 8

/-- Modelled from the spec: the combination of all four capability flags. -/
def BatchFlags.BATCH_ALL : Nat :=
  BatchFlags.BATCH_CREATE ||| BatchFlags.BATCH_GET |||
  BatchFlags.BATCH_UPDATE ||| BatchFlags.QUERY

/-- ASCII lower-casing of a string, character by character: the embedding of
Python's `str.lower()` applied to a class name. -/
def lowerCased (s : String) : String := ⟨s.data.map Char.toLower⟩

/-- Modelled from the spec: the class-level declarations the factory reads
off an entity class — optional `BATCH_FLAGS`, `NAME_ATTRIBUTE` and
`REQUEST_PATH` constants, plus the class name (section 4.4). -/
structure EntityClass where
  className : String
  BATCH_FLAGS : Option Nat
  NAME_ATTRIBUTE : Option String
  REQUEST_PATH : Option String

/-- Modelled from the spec: the per-entity-type `ElementFactory` state —
capability flags and naming conventions (section 4.4). -/
structure ElementFactory where
  batch_flags : Nat
  name_attribute : String
  uri : String

/-- Modelled from the spec: `ElementFactory.__init__(lims, element_class)`
(section 4.4): capability flags are read once from the class's declared
constant (absent declaration defaults to no capability); `name_attribute`
defaults to `"name"`; `uri` is the root URI followed by the declared
request path, or by the lower-cased class name with `"s"` appended when no
request path is declared. -/
def ElementFactory.create (root_uri : String) (element_class : EntityClass) : ElementFactory :=
  { batch_flags := element_class.BATCH_FLAGS.getD BatchFlags.NONE
    name_attribute := element_class.NAME_ATTRIBUTE.getD "name"
    uri := root_uri ++ "/" ++
      (match element_class.REQUEST_PATH with
       | some p => p
       | none => lowerCased element_class.className ++ "s") }

/-- Modelled from the spec: `can_batch_create()`, a pure predicate over the
stored flags. -/
def ElementFactory.can_batch_create (f : ElementFactory) : Bool :=
  f.batch_flags &&& BatchFlags.BATCH_CREATE != 0

/-- Modelled from the spec: `can_batch_get()`, a pure predicate over the
stored flags. -/
def ElementFactory.can_batch_get (f : ElementFactory) : Bool :=
  f.batch_flags &&& BatchFlags.BATCH_GET != 0

/-- Modelled from the spec: `can_batch_update()`, a pure predicate over the
stored flags. -/
def ElementFactory.can_batch_update (f : ElementFactory) : Bool :=
  f.batch_flags &&& BatchFlags.BATCH_UPDATE != 0

/-- Modelled from the spec: `can_query()`, a pure predicate over the stored
flags. -/
def ElementFactory.can_query (f : ElementFactory) : Bool :=
  f.batch_flags &&& BatchFlags.QUERY != 0

def QC_PASSED : String := "PASSED"

def QC_FAILED : String := "FAILED"

def QC_UNKNOWN : String := "UNKNOWN"

def STAGE_STATUS_QUEUED : String := "QUEUED"

def STAGE_STATUS_REMOVED : String := "REMOVED"

def STAGE_STATUS_IN_PROGRESS : String := "IN_PROGRESS"

/-- An `Artifact` as far as the claims are concerned: its wrapped XML
document and the dirty flag (lazy fetching and the owning session are
outside this core). -/
structure Artifact where
  root : XmlNode
  dirty : Bool

/-- Modelled from the spec: `ClarityElement.xml_find` — the read-only
`find(path)` of the wrapped-document core (section 4.1). -/
def Artifact.xml_find (a : Artifact) (path : List String) : Option XmlNode :=
  XmlNode.findPath path a.root

/-- Modelled from the spec: `ClarityElement.get_node_text` — `get_text(path)`
of the wrapped-document core (section 4.1). -/
def Artifact.get_node_text (a : Artifact) (t : String) : Option String :=
  a.root.getNodeText t

/-- Modelled from the spec: `ClarityElement.set_subnode_text` —
`set_text(path, value)` of the wrapped-document core (section 4.1): creates
the subnode if missing, sets its text and marks the document dirty. -/
def Artifact.set_subnode_text (a : Artifact) (t v : String) : Artifact :=
  { a with root := a.root.setSubnodeText t v, dirty := true }

/-- Modelled from the spec: `ClarityElement.name` — the human-readable name,
read through the default `"name"` name attribute (section 4.4). -/
def Artifact.name (a : Artifact) : Option String :=
  a.root.getAttr "name"

/-- `Artifact.qc` getter (artifact.py lines 95-116): PASSED maps to `true`,
FAILED to `false`, anything else (including an absent flag) to `none`. -/
def Artifact.qc (a : Artifact) : Option Bool :=
  if a.get_node_text "qc-flag" = some QC_PASSED then some true
  else if a.get_node_text "qc-flag" = some QC_FAILED then some false
  else none

/-- `Artifact.set_qc_flag` (artifact.py lines 133-146), which the `qc`
setter delegates to: `none` writes UNKNOWN, `some true` writes PASSED,
`some false` writes FAILED. -/
def Artifact.set_qc_flag (a : Artifact) (value : Option Bool) : Artifact :=
  a.set_subnode_text "qc-flag"
    (match value with
     | none => QC_UNKNOWN
     | some b => if b then QC_PASSED else QC_FAILED)

/-- A concrete artifact document with no qc-flag subnode. -/
def artifactBare : Artifact :=
  ⟨⟨"art", [("name", "a1")], none, []⟩, false⟩

/-- `ReagentLabel.name = attribute_property("name", readonly=True)`
(artifact.py line 29), read half: the `name` attribute of the label node. -/
def ReagentLabel.nameOf (n : XmlNode) : Option String :=
  n.getAttr "name"

/-- `Artifact.reagent_labels = subnode_element_list(ReagentLabel, ".", "reagent-label")`
(artifact.py line 42): the `reagent-label` children of the root itself. -/
def Artifact.reagent_labels (a : Artifact) : List XmlNode :=
  a.root.subnodeElementList [] "reagent-label"

/-- `Artifact.reagent_label_names` (artifact.py lines 186-190): the name of
each reagent label in order. -/
def Artifact.reagent_label_names (a : Artifact) : List (Option String) :=
  a.reagent_labels.map ReagentLabel.nameOf

/-- `Artifact.reagent_label_name` (artifact.py lines 192-205): raises when
the artifact carries more than one reagent label, returns `none` for zero
labels, and the single label's name otherwise. -/
def Artifact.reagent_label_name (a : Artifact) : Except String (Option String) :=
  if a.reagent_label_names.length > 1 then
    Except.error "Artifact has multiple reagent labels."
  else if a.reagent_label_names.length = 0 then Except.ok none
  else Except.ok (a.reagent_label_names.getD 0 none)

/-- A concrete reagent-label element carrying the given name attribute. -/
def rlNode (nm : String) : XmlNode :=
  ⟨"reagent-label", [("name", nm)], none, []⟩

/-- A concrete artifact carrying exactly one reagent label. -/
def artifactOneLabel : Artifact :=
  ⟨⟨"art", [], none, [rlNode "L1"]⟩, false⟩

/-- A concrete artifact carrying two reagent labels. -/
def artifactTwoLabels : Artifact :=
  ⟨⟨"art", [], none, [rlNode "L1", rlNode "L2"]⟩, false⟩

/-- Replace the first binding of a key in an attribute list, appending a new
binding when the key is absent. -/
def setAttrList (k v : String) : List (String × String) → List (String × String)
  | [] => [(k, v)]
  | p :: ps => if p.1 == k then (k, v) :: ps else p :: setAttrList k v ps

/-- `node.set(key, value)` in ElementTree: set an attribute on a node. -/
def XmlNode.setAttr (n : XmlNode) (k v : String) : XmlNode :=
  { n with attrs := setAttrList k v n.attrs }

/-- Modelled from the spec: the write half of `attribute_property`
(section 4.2; `props.py` is not under src/): with `readonly=True` every
write attempt raises, before any mutation, so the wrapped document comes
back unchanged; otherwise the attribute is set and the document marked
dirty. -/
def attribute_property.write (readonly : Bool) (key : String) (w : WrappedXml) (v : String) :
    Except String Unit × WrappedXml :=
  if readonly then
    (Except.error ("Cannot set readonly attribute " ++ key ++ "."), w)
  else
    (Except.ok (), { root := w.root.setAttr key v, dirty := true })

/-- `ReagentLabel.name = attribute_property("name", readonly=True)`
(artifact.py line 29), write half: the descriptor instantiated read-only. -/
def ReagentLabel.writeName (w : WrappedXml) (v : String) : Except String Unit × WrappedXml :=
  attribute_property.write true "name" w v

/-- A `File` as far as claim C9 is concerned: its link URI and name (content
and transport state live in the excluded layers). -/
structure File where
  uri : Option String
  name : Option String

/-- Modelled from the spec: `File.new_empty` (`s4/clarity/file.py` is not
under src/) — a freshly constructed empty-shell File with no document
values yet. -/
def File.new_empty : File := ⟨none, none⟩

/-- Modelled from the spec: `lims.files.from_link_node` (section 4.2) —
`none` for an absent link node, otherwise the referenced entity, identified
here by the link node's `uri` and `name` attributes (the lazy fetch is
outside this core). -/
def File.from_link_node (n : Option XmlNode) : Option File :=
  n.map (fun node => ⟨node.getAttr "uri", node.getAttr "name"⟩)

/-- The namespaced tag of the file link subnode, as written in artifact.py
line 66. -/
def fileLinkTag : String := "\x7bhttp://genologics.com/ri/file\x7dfile"

/-- `Artifact.file` (artifact.py lines 63-70): resolve the file link; when
that yields nothing, fall back to a fresh empty File named after the
artifact — the property never yields `none`. -/
def Artifact.file (a : Artifact) : File :=
  match File.from_link_node (a.xml_find [fileLinkTag]) with
  | some f => f
  | none => { File.new_empty with name := a.name }

/-- A concrete file link node with a URI attribute. -/
def fileNode : XmlNode :=
  ⟨fileLinkTag, [("uri", "http://localhost/api/v2/files/40-1")], none, []⟩

/-- A concrete artifact whose document carries a file link subnode. -/
def artifactWithFile : Artifact :=
  ⟨⟨"art", [("name", "a1")], none, [fileNode]⟩, false⟩

/-- A `ControlType` as far as claim C10 is concerned: its link URI. -/
structure ControlType where
  uri : Option String

/-- Modelled from the spec: `lims.control_types.from_link_node`
(section 4.2) — `none` for an absent link node, otherwise the referenced
entity identified by the node's `uri` attribute. -/
def ControlType.from_link_node (n : Option XmlNode) : Option ControlType :=
  n.map (fun node => ⟨node.getAttr "uri"⟩)

/-- `Artifact.is_control` (artifact.py lines 72-75): whether the document
has a `control-type` subnode.  A pure read: the embedding returns a value
and no changed document, so reading cannot mutate. -/
def Artifact.is_control (a : Artifact) : Bool :=
  (a.xml_find ["control-type"]).isSome

/-- `Artifact.control_type` (artifact.py lines 77-80): the control type
resolved from the `control-type` link subnode, `none` when absent. -/
def Artifact.control_type (a : Artifact) : Option ControlType :=
  ControlType.from_link_node (a.xml_find ["control-type"])

/-- `WorkflowStageHistory.status = attribute_property("status")`
(artifact.py line 23): the status attribute of the history entry node. -/
def WorkflowStageHistory.statusOf (n : XmlNode) : Option String :=
  n.getAttr "status"

/-- `WorkflowStageHistory.stage = subnode_link(Stage, ".")` (artifact.py
line 25): the Stage resolved from the history node itself.  Modelled from
the spec: link resolution (section 4.2) identifies the referenced entity by
the node's `uri` attribute, which therefore stands for the stage here. -/
def WorkflowStageHistory.stageOf (n : XmlNode) : Option String :=
  n.getAttr "uri"

/-- `Artifact.workflow_stages = subnode_element_list(WorkflowStageHistory,
"workflow-stages", "workflow-stage")` (artifact.py line 41). -/
def Artifact.workflow_stages (a : Artifact) : List XmlNode :=
  a.root.subnodeElementList ["workflow-stages"] "workflow-stage"

/-- One iteration of the `queued_stages` loop (artifact.py lines 86-91):
a QUEUED entry adds its stage to the set, a REMOVED or IN_PROGRESS entry
discards it, anything else is a no-op. -/
def queuedStep (acc : Finset (Option String)) (n : XmlNode) : Finset (Option String) :=
  if WorkflowStageHistory.statusOf n = some STAGE_STATUS_QUEUED then
    insert (WorkflowStageHistory.stageOf n) acc
  else if WorkflowStageHistory.statusOf n = some STAGE_STATUS_REMOVED ∨
          WorkflowStageHistory.statusOf n = some STAGE_STATUS_IN_PROGRESS then
    acc.erase (WorkflowStageHistory.stageOf n)
  else acc

/-- `Artifact.queued_stages` (artifact.py lines 82-93): fold the loop over
the workflow-stage history in document order, starting from the empty set. -/
def Artifact.queued_stages (a : Artifact) : Finset (Option String) :=
  a.workflow_stages.foldl queuedStep ∅

/-- A history entry is relevant to a stage when it is about that stage and
its status is one of QUEUED, REMOVED or IN_PROGRESS. -/
def relevantFor (s : Option String) (n : XmlNode) : Bool :=
  (WorkflowStageHistory.stageOf n == s) &&
  (WorkflowStageHistory.statusOf n == some STAGE_STATUS_QUEUED ||
   WorkflowStageHistory.statusOf n == some STAGE_STATUS_REMOVED ||
   WorkflowStageHistory.statusOf n == some STAGE_STATUS_IN_PROGRESS)

/-- A concrete workflow-stage history entry node with the given stage URI
and status. -/
def wsh (u st : String) : XmlNode :=
  ⟨"workflow-stage", [("uri", u), ("status", st)], none, []⟩

/-- The scenario artifact of the claim: history entries
[stage A: QUEUED, stage B: QUEUED, stage A: IN_PROGRESS]. -/
def scenarioArtifact : Artifact :=
  ⟨⟨"art", [], none,
    [⟨"workflow-stages", [], none,
      [wsh "stage-A" "QUEUED", wsh "stage-B" "QUEUED", wsh "stage-A" "IN_PROGRESS"]⟩]⟩,
   false⟩

/-! ### Theorems -/

/-- Claim C1: for every entity class that declares no `BATCH_FLAGS`
constant, the constructed factory reports all four capability predicates
false (the fail-closed default). -/
theorem factory_default_capabilities_false (root cname : String)
    (na rp : Option String) :
    (ElementFactory.create root ⟨cname, none, na, rp⟩).can_batch_create = false ∧
    (ElementFactory.create root ⟨cname, none, na, rp⟩).can_batch_get = false ∧
    (ElementFactory.create root ⟨cname, none, na, rp⟩).can_batch_update = false ∧
    (ElementFactory.create root ⟨cname, none, na, rp⟩).can_query = false :=
  ⟨(by decide : (BatchFlags.NONE &&& BatchFlags.BATCH_CREATE != 0) = false),
   (by decide : (BatchFlags.NONE &&& BatchFlags.BATCH_GET != 0) = false),
   (by decide : (BatchFlags.NONE &&& BatchFlags.BATCH_UPDATE != 0) = false),
   (by decide : (BatchFlags.NONE &&& BatchFlags.QUERY != 0) = false)⟩

/-- Claim C2: declaring `BATCH_FLAGS` equal to exactly one of the four
individual flags yields a factory where the corresponding capability
predicate is true and the other three are false; declaring
`BatchFlags.BATCH_ALL` yields all four true; declaring `BatchFlags.NONE`
yields all four false. -/
theorem factory_individual_capability_flags (root cname : String)
    (na rp : Option String) :
    ((ElementFactory.create root ⟨cname, some BatchFlags.BATCH_CREATE, na, rp⟩).can_batch_create = true ∧
     (ElementFactory.create root ⟨cname, some BatchFlags.BATCH_CREATE, na, rp⟩).can_batch_get = false ∧
     (ElementFactory.create root ⟨cname, some BatchFlags.BATCH_CREATE, na, rp⟩).can_batch_update = false ∧
     (ElementFactory.create root ⟨cname, some BatchFlags.BATCH_CREATE, na, rp⟩).can_query = false) ∧
    ((ElementFactory.create root ⟨cname, some BatchFlags.BATCH_GET, na, rp⟩).can_batch_create = false ∧
     (ElementFactory.create root ⟨cname, some BatchFlags.BATCH_GET, na, rp⟩).can_batch_get = true ∧
     (ElementFactory.create root ⟨cname, some BatchFlags.BATCH_GET, na, rp⟩).can_batch_update = false ∧
     (ElementFactory.create root ⟨cname, some BatchFlags.BATCH_GET, na, rp⟩).can_query = false) ∧
    ((ElementFactory.create root ⟨cname, some BatchFlags.BATCH_UPDATE, na, rp⟩).can_batch_create = false ∧
     (ElementFactory.create root ⟨cname, some BatchFlags.BATCH_UPDATE, na, rp⟩).can_batch_get = false ∧
     (ElementFactory.create root ⟨cname, some BatchFlags.BATCH_UPDATE, na, rp⟩).can_batch_update = true ∧
     (ElementFactory.create root ⟨cname, some BatchFlags.BATCH_UPDATE, na, rp⟩).can_query = false) ∧
    ((ElementFactory.create root ⟨cname, some BatchFlags.QUERY, na, rp⟩).can_batch_create = false ∧
     (ElementFactory.create root ⟨cname, some BatchFlags.QUERY, na, rp⟩).can_batch_get = false ∧
     (ElementFactory.create root ⟨cname, some BatchFlags.QUERY, na, rp⟩).can_batch_update = false ∧
     (ElementFactory.create root ⟨cname, some BatchFlags.QUERY, na, rp⟩).can_query = true) ∧
    ((ElementFactory.create root ⟨cname, some BatchFlags.BATCH_ALL, na, rp⟩).can_batch_create = true ∧
     (ElementFactory.create root ⟨cname, some BatchFlags.BATCH_ALL, na, rp⟩).can_batch_get = true ∧
     (ElementFactory.create root ⟨cname, some BatchFlags.BATCH_ALL, na, rp⟩).can_batch_update = true ∧
     (ElementFactory.create root ⟨cname, some BatchFlags.BATCH_ALL, na, rp⟩).can_query = true) ∧
    ((ElementFactory.create root ⟨cname, some BatchFlags.NONE, na, rp⟩).can_batch_create = false ∧
     (ElementFactory.create root ⟨cname, some BatchFlags.NONE, na, rp⟩).can_batch_get = false ∧
     (ElementFactory.create root ⟨cname, some BatchFlags.NONE, na, rp⟩).can_batch_update = false ∧
     (ElementFactory.create root ⟨cname, some BatchFlags.NONE, na, rp⟩).can_query = false) :=
  ⟨⟨(by decide : (BatchFlags.BATCH_CREATE &&& BatchFlags.BATCH_CREATE != 0) = true),
    (by decide : (BatchFlags.BATCH_CREATE &&& BatchFlags.BATCH_GET != 0) = false),
    (by decide : (BatchFlags.BATCH_CREATE &&& BatchFlags.BATCH_UPDATE != 0) = false),
    (by decide : (BatchFlags.BATCH_CREATE &&& BatchFlags.QUERY != 0) = false)⟩,
   ⟨(by decide : (BatchFlags.BATCH_GET &&& BatchFlags.BATCH_CREATE != 0) = false),
    (by decide : (BatchFlags.BATCH_GET &&& BatchFlags.BATCH_GET != 0) = true),
    (by decide : (BatchFlags.BATCH_GET &&& BatchFlags.BATCH_UPDATE != 0) = false),
    (by decide : (BatchFlags.BATCH_GET &&& BatchFlags.QUERY != 0) = false)⟩,
   ⟨(by decide : (BatchFlags.BATCH_UPDATE &&& BatchFlags.BATCH_CREATE != 0) = false),
    (by decide : (BatchFlags.BATCH_UPDATE &&& BatchFlags.BATCH_GET != 0) = false),
    (by decide : (BatchFlags.BATCH_UPDATE &&& BatchFlags.BATCH_UPDATE != 0) = true),
    (by decide : (BatchFlags.BATCH_UPDATE &&& BatchFlags.QUERY != 0) = false)⟩,
   ⟨(by decide : (BatchFlags.QUERY &&& BatchFlags.BATCH_CREATE != 0) = false),
    (by decide : (BatchFlags.QUERY &&& BatchFlags.BATCH_GET != 0) = false),
    (by decide : (BatchFlags.QUERY &&& BatchFlags.BATCH_UPDATE != 0) = false),
    (by decide : (BatchFlags.QUERY &&& BatchFlags.QUERY != 0) = true)⟩,
   ⟨(by decide : (BatchFlags.BATCH_ALL &&& BatchFlags.BATCH_CREATE != 0) = true),
    (by decide : (BatchFlags.BATCH_ALL &&& BatchFlags.BATCH_GET != 0) = true),
    (by decide : (BatchFlags.BATCH_ALL &&& BatchFlags.BATCH_UPDATE != 0) = true),
    (by decide : (BatchFlags.BATCH_ALL &&& BatchFlags.QUERY != 0) = true)⟩,
   ⟨(by decide : (BatchFlags.NONE &&& BatchFlags.BATCH_CREATE != 0) = false),
    (by decide : (BatchFlags.NONE &&& BatchFlags.BATCH_GET != 0) = false),
    (by decide : (BatchFlags.NONE &&& BatchFlags.BATCH_UPDATE != 0) = false),
    (by decide : (BatchFlags.NONE &&& BatchFlags.QUERY != 0) = false)⟩⟩

/-- Claim C3: the factory's `uri` ends with the class's declared
`REQUEST_PATH` verbatim when present, and otherwise ends with the
lower-cased class name with `"s"` appended; in particular a class named
`TestElement` with no `REQUEST_PATH` yields a `uri` ending in
`"testelements"`. -/
theorem factory_uri_request_path (root cname : String)
    (fl : Option Nat) (na : Option String) :
    (∀ p : String, ∃ s : String,
      (ElementFactory.create root ⟨cname, fl, na, some p⟩).uri = s ++ p) ∧
    (∃ s : String,
      (ElementFactory.create root ⟨cname, fl, na, none⟩).uri = s ++ (lowerCased cname ++ "s")) ∧
    (∃ s : String,
      (ElementFactory.create root ⟨"TestElement", fl, na, none⟩).uri = s ++ "testelements") :=
  ⟨fun _ => ⟨root ++ "/", rfl⟩, ⟨root ++ "/", rfl⟩,
   ⟨root ++ "/",
    congrArg (fun t => root ++ "/" ++ t)
      (by decide : lowerCased "TestElement" ++ "s" = "testelements")⟩⟩

/-- Claim C4: the factory's `name_attribute` equals `"name"` when the
entity class declares no `NAME_ATTRIBUTE`, and equals the declared value
exactly when one is declared. -/
theorem factory_name_attribute (root cname : String)
    (fl : Option Nat) (rp : Option String) :
    (ElementFactory.create root ⟨cname, fl, none, rp⟩).name_attribute = "name" ∧
    (∀ v : String,
      (ElementFactory.create root ⟨cname, fl, some v, rp⟩).name_attribute = v) :=
  ⟨rfl, fun _ => rfl⟩

/-- After an auto-vivifying text write, the first child with the written
tag carries the written text. -/
theorem find_text_setChildText (t v : String) (cs : List XmlNode) :
    ((setChildText t v cs).find? (fun x => x.tag == t)).bind XmlNode.text = some v := by
  induction cs with
  | nil => simp [setChildText]
  | cons c cs ih =>
    simp only [setChildText]
    by_cases h : (c.tag == t) = true
    · rw [if_pos h]
      simp [h]
    · rw [if_neg h]
      simp [h, ih]

/-- Writing subnode text and reading it back through `get_text` returns the
written value. -/
theorem getNodeText_setSubnodeText (n : XmlNode) (t v : String) :
    (n.setSubnodeText t v).getNodeText t = some v := by
  simpa [XmlNode.setSubnodeText, XmlNode.getNodeText, XmlNode.findChild] using
    find_text_setChildText t v n.children

/-- The `qc` round trip: whatever optional boolean is written through
`set_qc_flag` is read back unchanged by the `qc` getter. -/
theorem qc_set_qc_flag_roundtrip (a : Artifact) (v : Option Bool) :
    (a.set_qc_flag v).qc = v := by
  have h : ∀ s : String, (a.set_subnode_text "qc-flag" s).get_node_text "qc-flag" = some s :=
    fun s => getNodeText_setSubnodeText a.root "qc-flag" s
  match v with
  | none =>
    show (a.set_subnode_text "qc-flag" QC_UNKNOWN).qc = none
    simp only [Artifact.qc, h]
    decide
  | some true =>
    show (a.set_subnode_text "qc-flag" QC_PASSED).qc = some true
    simp only [Artifact.qc, h]
    decide
  | some false =>
    show (a.set_subnode_text "qc-flag" QC_FAILED).qc = some false
    simp only [Artifact.qc, h]
    decide

/-- Claim C5: for every Artifact, setting `qc` to True then reading returns
True with qc-flag text PASSED; setting None reads back None with text
UNKNOWN; setting False reads back False with text FAILED; and an Artifact
whose qc-flag subnode was never written reads `qc` as None. -/
theorem artifact_qc_tristate (a : Artifact) :
    (a.set_qc_flag (some true)).qc = some true ∧
    (a.set_qc_flag (some true)).get_node_text "qc-flag" = some QC_PASSED ∧
    (a.set_qc_flag none).qc = none ∧
    (a.set_qc_flag none).get_node_text "qc-flag" = some QC_UNKNOWN ∧
    (a.set_qc_flag (some false)).qc = some false ∧
    (a.set_qc_flag (some false)).get_node_text "qc-flag" = some QC_FAILED ∧
    (a.root.findChild "qc-flag" = none → a.qc = none) := by
  have h : ∀ s : String, (a.set_subnode_text "qc-flag" s).get_node_text "qc-flag" = some s :=
    fun s => getNodeText_setSubnodeText a.root "qc-flag" s
  refine ⟨qc_set_qc_flag_roundtrip a _, h QC_PASSED,
          qc_set_qc_flag_roundtrip a _, h QC_UNKNOWN,
          qc_set_qc_flag_roundtrip a _, h QC_FAILED, ?_⟩
  intro hnone
  have htext : a.get_node_text "qc-flag" = none := by
    simp [Artifact.get_node_text, XmlNode.getNodeText, hnone]
  simp only [Artifact.qc, htext]
  decide

/-- Witness for claim C5 at a concrete artifact: all six write-then-read
facts, plus the never-written artifact reading `qc` as None. -/
theorem artifact_qc_tristate_w :
    (artifactBare.set_qc_flag (some true)).qc = some true ∧
    (artifactBare.set_qc_flag none).qc = none ∧
    artifactBare.qc = none :=
  ⟨(artifact_qc_tristate artifactBare).1,
   (artifact_qc_tristate artifactBare).2.2.1,
   (artifact_qc_tristate artifactBare).2.2.2.2.2.2 rfl⟩

/-- Claim C7: reading `reagent_label_name` raises when the artifact carries
more than one reagent label, returns None (not an error) for zero labels,
and returns the single label's name for exactly one. -/
theorem artifact_reagent_label_name_multiplicity (a : Artifact) :
    (a.reagent_labels.length > 1 →
      a.reagent_label_name = Except.error "Artifact has multiple reagent labels.") ∧
    (a.reagent_labels.length = 0 → a.reagent_label_name = Except.ok none) ∧
    (∀ l : XmlNode, a.reagent_labels = [l] →
      a.reagent_label_name = Except.ok (ReagentLabel.nameOf l)) := by
  refine ⟨?_, ?_, ?_⟩
  · intro h
    simp only [Artifact.reagent_label_name, Artifact.reagent_label_names, List.length_map]
    rw [if_pos h]
  · intro h
    simp only [Artifact.reagent_label_name, Artifact.reagent_label_names, List.length_map]
    rw [if_neg (by omega), if_pos h]
  · intro l hl
    simp [Artifact.reagent_label_name, Artifact.reagent_label_names, hl]

/-- Witness for claim C7 at concrete artifacts with two, zero and one
reagent labels. -/
theorem artifact_reagent_label_name_multiplicity_w :
    artifactTwoLabels.reagent_label_name = Except.error "Artifact has multiple reagent labels." ∧
    artifactBare.reagent_label_name = Except.ok none ∧
    artifactOneLabel.reagent_label_name = Except.ok (ReagentLabel.nameOf (rlNode "L1")) :=
  ⟨(artifact_reagent_label_name_multiplicity artifactTwoLabels).1 (by decide),
   (artifact_reagent_label_name_multiplicity artifactBare).2.1 (by decide),
   (artifact_reagent_label_name_multiplicity artifactOneLabel).2.2 (rlNode "L1") rfl⟩

/-- Claim C8: every write attempt through a descriptor declared
`readonly=True` raises, and the underlying XML document is unchanged after
the failed write; in particular for `ReagentLabel.name`. -/
theorem readonly_write_raises_unchanged :
    (∀ (key : String) (w : WrappedXml) (v : String),
      (attribute_property.write true key w v).1 =
        Except.error ("Cannot set readonly attribute " ++ key ++ ".") ∧
      (attribute_property.write true key w v).2 = w) ∧
    (∀ (w : WrappedXml) (v : String),
      ReagentLabel.writeName w v =
        (Except.error ("Cannot set readonly attribute " ++ "name" ++ "."), w)) :=
  ⟨fun _ _ _ => ⟨rfl, rfl⟩, fun _ _ => rfl⟩

/-- Claim C9: `Artifact.file` never returns None — when the document has no
file link subnode it returns a freshly constructed empty File whose name is
the artifact's name (and when the link resolves, that resolved File). -/
theorem artifact_file_never_none (a : Artifact) :
    (File.from_link_node (a.xml_find [fileLinkTag]) = none →
      a.file = { File.new_empty with name := a.name }) ∧
    (∀ f : File, File.from_link_node (a.xml_find [fileLinkTag]) = some f →
      a.file = f) := by
  constructor
  · intro h
    simp [Artifact.file, h]
  · intro f h
    simp [Artifact.file, h]

/-- Witness for claim C9: the bare artifact (no file link) yields the empty
File carrying the artifact's name, and an artifact with a link yields the
resolved File. -/
theorem artifact_file_never_none_w :
    artifactBare.file = { File.new_empty with name := artifactBare.name } ∧
    artifactWithFile.file = ⟨some "http://localhost/api/v2/files/40-1", none⟩ :=
  ⟨(artifact_file_never_none artifactBare).1 rfl,
   (artifact_file_never_none artifactWithFile).2
     ⟨some "http://localhost/api/v2/files/40-1", none⟩ rfl⟩

/-- Claim C10: `is_control` is true exactly when the `control-type` subnode
is present, equivalently exactly when `control_type` resolves to something;
both reads are pure functions of the artifact (no mutation is possible by
construction). -/
theorem artifact_is_control_iff (a : Artifact) :
    (a.is_control = true ↔ a.xml_find ["control-type"] ≠ none) ∧
    (a.is_control = true ↔ (a.control_type).isSome = true) := by
  constructor
  · simp [Artifact.is_control, Option.isSome_iff_ne_none]
  · simp [Artifact.is_control, Artifact.control_type, ControlType.from_link_node]

/-- Characterization of the `queued_stages` fold: a stage is in the result
exactly when its most recent relevant history entry has status QUEUED. -/
theorem mem_foldl_queuedStep (s : Option String) (l : List XmlNode) :
    s ∈ l.foldl queuedStep ∅ ↔
      ∃ n, l.reverse.find? (relevantFor s) = some n ∧
        WorkflowStageHistory.statusOf n = some STAGE_STATUS_QUEUED := by
  induction l using List.reverseRecOn with
  | nil => simp
  | append_singleton l x ih =>
    simp only [List.foldl_append, List.foldl_cons, List.foldl_nil, List.reverse_append,
      List.reverse_cons, List.reverse_nil, List.nil_append, List.singleton_append]
    by_cases hq : WorkflowStageHistory.statusOf x = some STAGE_STATUS_QUEUED
    · simp only [queuedStep]
      rw [if_pos hq]
      by_cases hsg : WorkflowStageHistory.stageOf x = s
      · have hrel : relevantFor s x = true := by
          simp [relevantFor, hsg, hq]
        rw [List.find?_cons_of_pos _ hrel]
        simp [hsg, hq]
      · have hrel : relevantFor s x = false := by
          simp [relevantFor, hsg]
        rw [List.find?_cons_of_neg _ (by simp [hrel])]
        have hne : s ≠ WorkflowStageHistory.stageOf x := fun h => hsg h.symm
        simp [Finset.mem_insert, hne, ih]
    · by_cases hr : WorkflowStageHistory.statusOf x = some STAGE_STATUS_REMOVED ∨
          WorkflowStageHistory.statusOf x = some STAGE_STATUS_IN_PROGRESS
      · simp only [queuedStep]
        rw [if_neg hq, if_pos hr]
        by_cases hsg : WorkflowStageHistory.stageOf x = s
        · have hrel : relevantFor s x = true := by
            rcases hr with h | h <;> simp [relevantFor, hsg, h]
          rw [List.find?_cons_of_pos _ hrel]
          simp [hsg, hq]
        · have hrel : relevantFor s x = false := by
            simp [relevantFor, hsg]
          rw [List.find?_cons_of_neg _ (by simp [hrel])]
          have hne : s ≠ WorkflowStageHistory.stageOf x := fun h => hsg h.symm
          simp [Finset.mem_erase, hne, ih]
      · simp only [queuedStep]
        rw [if_neg hq, if_neg hr]
        obtain ⟨hr1, hr2⟩ := not_or.mp hr
        have hrel : relevantFor s x = false := by
          simp [relevantFor, hq, hr1, hr2]
        rw [List.find?_cons_of_neg _ (by simp [hrel])]
        exact ih

/-- Claim C6: `queued_stages` returns exactly the set of stages whose most
recent history entry with status QUEUED, REMOVED or IN_PROGRESS has status
QUEUED; for the history [A: QUEUED, B: QUEUED, A: IN_PROGRESS] the result
is the singleton containing stage B. -/
theorem artifact_queued_stages_correct :
    (∀ (a : Artifact) (s : Option String),
      s ∈ a.queued_stages ↔
        ∃ n, (a.workflow_stages).reverse.find? (relevantFor s) = some n ∧
          WorkflowStageHistory.statusOf n = some STAGE_STATUS_QUEUED) ∧
    scenarioArtifact.queued_stages = {some "stage-B"} :=
  ⟨fun a s => mem_foldl_queuedStep s a.workflow_stages, by decide⟩
